import Mathlib

/-!
Verification of the session/state-management core of the commandkit menu
plugin (registry, session manager, pagination engine, action-id protocol,
update queue), as a shallow embedding of the TypeScript source.

Conventions of the embedding:
* JavaScript `Map` objects become association lists with unique keys
  (`alistGet`/`alistSet`/`alistErase`).
* Mutation of `this` becomes explicit state passing: a method that mutates
  the menu returns the updated `PaginationMenu` (paired with its result).
* `undefined`/optional values become `Option`; thrown errors become
  `Except String`.
* The rendering SDK (discord.js builders) is out of scope; a built page is
  modelled by its observable data: the page number, the slice of items it
  shows, and whether navigation controls are attached.
* The plugin configuration value `actionPrefix` is threaded explicitly as
  the `actionTag` argument of the id functions.
-/

namespace MenuPlugin

/-! ## Association-list model of JavaScript Map -/

/-- Map.get: first binding of the key, if any. -/
def alistGet {κ α : Type} [DecidableEq κ] : List (κ × α) → κ → Option α
  | [], _ => none
  | e :: rest, k => if e.1 = k then some e.2 else alistGet rest k

/-- Map.set: replace the binding in place, else append. -/
def alistSet {κ α : Type} [DecidableEq κ] : List (κ × α) → κ → α → List (κ × α)
  | [], k, v => [(k, v)]
  | e :: rest, k, v => if e.1 = k then (k, v) :: rest else e :: alistSet rest k v

/-- Map.delete: remove every binding of the key (on unique-key lists this is
    exactly the single-entry deletion a Map performs). -/
def alistErase {κ α : Type} [DecidableEq κ] (l : List (κ × α)) (k : κ) : List (κ × α) :=
  l.filter fun e => decide (e.1 ≠ k)

/-! ## JavaScript string primitives used by the id protocol -/

/-- Core of String.prototype.split for a one-character separator. -/
def splitChar (sep : Char) : List Char → List (List Char)
  | [] => [[]]
  | c :: rest =>
    let r := splitChar sep rest
    if c = sep then [] :: r
    else
      match r with
      | [] => [[c]]
      | g :: gs => (c :: g) :: gs

/-- JS `s.split(sep)` for a one-character separator. -/
def jsSplit (s : String) (sep : Char) : List String :=
  (splitChar sep s.toList).map String.mk

/-- Whether `p` is an initial segment of `cs` (JS String.prototype.startsWith). -/
def listIsInit : List Char → List Char → Bool
  | [], _ => true
  | _ :: _, [] => false
  | a :: ps, b :: rest => a = b && listIsInit ps rest

/-- JS `s.startsWith(p)`. -/
def jsStartsWith (s p : String) : Bool :=
  listIsInit p.toList s.toList

/-- JS `s.slice(n)` for a non-negative start. -/
def jsDropChars (s : String) (n : Nat) : String :=
  String.mk (s.toList.drop n)

/-- JS `s.includes(c)` for a one-character needle. -/
def jsIncludes (s : String) (c : Char) : Bool :=
  s.toList.contains c

def digitVal (c : Char) : Nat := c.toNat - '0'.toNat

/-- Numeric value of a run of decimal digits. -/
def parseDigits (cs : List Char) : Nat :=
  cs.foldl (fun acc c => acc * 10 + digitVal c) 0

/-- Model of JavaScript `parseInt(str, 10)`: skip leading whitespace, read an
    optional sign, then the maximal run of leading decimal digits; the result
    is NaN (here `none`) exactly when that run is empty. Trailing garbage
    after at least one digit is ignored, as in JS. -/
def jsParseInt (s : String) : Option Int :=
  let cs := s.toList.dropWhile fun c => c = ' ' ∨ c = '\t' ∨ c = '\n' ∨ c = '\r'
  match cs with
  | '-' :: rest =>
    let ds := rest.takeWhile Char.isDigit
    if ds.isEmpty then none else some (-(parseDigits ds : Int))
  | '+' :: rest =>
    let ds := rest.takeWhile Char.isDigit
    if ds.isEmpty then none else some ((parseDigits ds : Int))
  | rest =>
    let ds := rest.takeWhile Char.isDigit
    if ds.isEmpty then none else some ((parseDigits ds : Int))

def digitChar (n : Nat) : Char := Char.ofNat ('0'.toNat + n)

/-- Decimal digits of `n`, most significant first; `fuel` bounds the recursion
    and is always called with `fuel > number of digits`. -/
def natToChars : Nat → Nat → List Char
  | 0, _ => []
  | fuel + 1, n => if n < 10 then [digitChar n] else natToChars fuel (n / 10) ++ [digitChar (n % 10)]

/-- Decimal rendering of an integer, as JS template interpolation produces for
    an integral number. -/
def intToString : Int → String
  | Int.ofNat n => String.mk (natToChars (n + 1) n)
  | Int.negSucc m => String.mk ('-' :: natToChars (m + 2) (m + 1))

/-! ## constants.ts -/

/-- RESERVED_ACTIONS: navigation action names users cannot override. -/
def reservedActions : List String :=
  ["first", "previous", "next", "last", "goto", "indicator"]

/-- The `__nav__` marker (constants.ts INTERNAL_ACTION_PREFIX) prepended to
    built-in navigation actions inside the action payload. -/
def internalActionMark : String := "__nav__"

def maxSelectOptions : Nat := 25

/-! ## Action-id protocol (src/menus/base.ts, src/utils.ts, src/plugin.ts) -/

inductive ActionType where
  | navigation
  | user
deriving DecidableEq, Repr

structure ParsedAction where
  type : ActionType
  action : String
  itemIndex : Option Int
deriving DecidableEq, Repr

/-- BaseMenu.parseActionId (src/menus/base.ts lines 476-510): classify the
    action payload as navigation (`__nav__` marker) or user action, parsing a
    trailing `|N` item index for user actions; `null` when the index part is
    not a number. -/
def parseActionId (action : String) : Option ParsedAction :=
  if jsStartsWith action internalActionMark then
    some ⟨ActionType.navigation, jsDropChars action internalActionMark.toList.length, none⟩
  else if jsIncludes action '|' then
    let parts := jsSplit action '|'
    let actionName := parts.getD 0 ""
    let indexStr := parts.getD 1 ""
    match jsParseInt indexStr with
    | none => none
    | some itemIndex => some ⟨ActionType.user, actionName, some itemIndex⟩
  else
    some ⟨ActionType.user, action, none⟩

/-- BaseMenu.createActionId (src/menus/base.ts lines 464-471): canonical id
    `actionPrefix:sessionId:action` for a user action; reserved navigation
    names are rejected with an error. -/
def createActionId (actionTag sessionId action : String) : Except String String :=
  if action ∈ reservedActions then
    Except.error "reserved for internal navigation"
  else
    Except.ok (actionTag ++ ":" ++ sessionId ++ ":" ++ action)

/-- PaginationMenu.createNavigationActionId: canonical id
    `actionPrefix:sessionId:__nav__action` for a built-in navigation action. -/
def createNavigationActionId (actionTag sessionId action : String) : String :=
  actionTag ++ ":" ++ sessionId ++ ":" ++ internalActionMark ++ action

/-- The custom_id rewrite of transformComponentCustomId (src/utils.ts lines
    33-44). The surrounding function walks arrays and nested objects and
    applies exactly this rewrite at every node carrying a string custom_id:
    `actionPrefix:originalId|itemIndex:sessionId` when the raw id names a
    registered item action and an index was supplied, otherwise
    `actionPrefix:originalId:sessionId`. Note the session id is the LAST
    colon segment here. -/
def transformCustomId (originalId actionTag sessionId : String)
    (itemActionNames : List String) (itemIndex : Option Int) : String :=
  if originalId ∈ itemActionNames then
    match itemIndex with
    | some idx => actionTag ++ ":" ++ originalId ++ "|" ++ intToString idx ++ ":" ++ sessionId
    | none => actionTag ++ ":" ++ originalId ++ ":" ++ sessionId
  else
    actionTag ++ ":" ++ originalId ++ ":" ++ sessionId

/-- MenuPlugin.willEmitEvent destructuring (src/plugin.ts line 192): the
    custom id splits on `:` into `[prefix, sessionKey, action]`; missing
    segments (`undefined`) are modelled by `""`. -/
def routerSplit (customId : String) : String × String × String :=
  let parts := jsSplit customId ':'
  (parts.getD 0 "", parts.getD 1 "", parts.getD 2 "")

inductive RouteResult where
  /-- prefix segment did not match the configured action prefix: not claimed. -/
  | ignored
  /-- the session-key segment named no live session: warn and drop. -/
  | sessionMissing (key : String)
  /-- event dispatched to the session under `key` with the action payload. -/
  | dispatched (key : String) (payload : String)
deriving DecidableEq, Repr

/-- Routing decision of MenuPlugin.willEmitEvent (src/plugin.ts lines
    192-203): split the custom id, claim the event only when the first
    segment equals the configured action prefix, then resolve the session by
    the second segment and hand the third to handleInteraction. -/
def willEmitEventRoute (configTag : String) (liveSessionKeys : List String)
    (customId : String) : RouteResult :=
  let parts := routerSplit customId
  if parts.1 ≠ configTag then RouteResult.ignored
  else if parts.2.1 ∈ liveSessionKeys then RouteResult.dispatched parts.2.1 parts.2.2
  else RouteResult.sessionMissing parts.2.1

/-! ## Data model (src/types) -/

/-- types/menu.ts sessionOptions.mode: `"shared" | "private" | "locked"`. -/
inductive SessionMode where
  | shared
  | privateMode
  | locked
deriving DecidableEq, Repr

/-- types/menu.ts BaseMenuDefinition.sessionOptions (every field optional). -/
structure SessionOptions where
  mode : Option SessionMode := none
  ephemeral : Option Bool := none
  ttl : Option Nat := none
  deleteOnEnd : Option Bool := none
  updateOnEnd : Option Bool := none
deriving DecidableEq, Repr

/-- types/session.ts UserSession. The ephemeral-token coordinates
    (interactionToken/interactionId/tokenExpiresAt) belong to the excluded
    message-delivery layer and are omitted. -/
structure UserSession where
  userId : String
  messageId : String
  channelId : String
  currentPage : Nat
  ephemeral : Bool
  createdAt : Nat
deriving DecidableEq, Repr

/-- A session-data record (the opaque payload produced by onSessionStart and
    merged by the update queue), modelled as a string-keyed record. -/
abbrev SessionRecord := List (String × String)

/-- JS object spread `\x7b...current, ...update\x7d`: every key of the update
    overrides or is appended. -/
def recordMerge (cur upd : SessionRecord) : SessionRecord :=
  upd.foldl (fun acc kv => alistSet acc kv.1 kv.2) cur

/-- A registered menu definition (types/menu.ts). Items and params are opaque
    strings. `onSessionEnd : Bool` records whether the teardown hook is
    present; `isPagination` models the duck-typing check
    `"renderItem" in definition` the manager performs. -/
structure MenuDefinition where
  name : String
  createKey : String → String
  sessionOptions : Option SessionOptions := none
  onSessionStart : Option (String → SessionRecord) := none
  onSessionEnd : Bool := false
  perPage : Int := 0
  fetch : String → List String := fun _ => []
  isPagination : Bool := true

/-- `definition.sessionOptions?.mode ?? "shared"`. -/
def modeOf (d : MenuDefinition) : SessionMode :=
  (d.sessionOptions.bind SessionOptions.mode).getD SessionMode.shared

/-- `definition.sessionOptions?.ephemeral ?? false`. -/
def ephemeralOf (d : MenuDefinition) : Bool :=
  (d.sessionOptions.bind SessionOptions.ephemeral).getD false

/-- `definition.sessionOptions?.ttl`. -/
def ttlOf (d : MenuDefinition) : Option Nat :=
  d.sessionOptions.bind SessionOptions.ttl

/-- The observable data of a built page (the rendered container): which page
    it is, the item slice it shows, and whether navigation controls were
    attached (renderNavigationControls returns null iff pageCount <= 1). -/
structure Page where
  pageNumber : Nat
  itemsSlice : List String
  hasNavigation : Bool
deriving DecidableEq, Repr

/-! ## Pagination engine state (src/menus/pagination.ts, src/menus/base.ts) -/

/-- The state of one PaginationMenu session object. `pageCache` is the
    pageIndex -> built page Map; `preloadAll` is the resolved render option. -/
structure PaginationMenu where
  definition : MenuDefinition
  sessionId : String
  params : String
  sessionData : SessionRecord := []
  isInitialized : Bool := false
  creatorId : String
  userSessions : List (String × UserSession) := []
  items : List String := []
  pageCount : Nat := 0
  pageCache : List (Nat × Page) := []
  preloadAll : Bool := false

/-- BaseMenu.hasUserSession. -/
def hasUserSession (m : PaginationMenu) (userId : String) : Bool :=
  (alistGet m.userSessions userId).isSome

/-- BaseMenu.addUserSession: `userSessions.set(userSession.userId, userSession)`. -/
def addUserSession (m : PaginationMenu) (us : UserSession) : PaginationMenu :=
  { m with userSessions := alistSet m.userSessions us.userId us }

/-- BaseMenu.getUserPage: the viewer's cursor, 0 when the user is unknown. -/
def getUserPage (m : PaginationMenu) (userId : String) : Nat :=
  match alistGet m.userSessions userId with
  | some s => s.currentPage
  | none => 0

/-- BaseMenu.setUserPage: update the cursor of an attached viewer; no-op for
    an unknown user. -/
def setUserPage (m : PaginationMenu) (userId : String) (page : Nat) : PaginationMenu :=
  match alistGet m.userSessions userId with
  | some s =>
    { m with userSessions := alistSet m.userSessions userId { s with currentPage := page } }
  | none => m

/-- BaseMenu.canInteract (src/menus/base.ts lines 128-143). The switch has
    cases for "shared" and "private" only and `default: return false`; the
    remaining mode value "locked" therefore lands in the default branch. -/
def canInteract (m : PaginationMenu) (userId : String) : Bool :=
  match modeOf m.definition with
  | SessionMode.shared => hasUserSession m userId
  | SessionMode.privateMode => decide (userId = m.creatorId)
  | SessionMode.locked => false

/-- BaseMenu.initialize (first call): run onSessionStart to produce the
    initial session data, then mark initialized. Color resolution belongs to
    the excluded rendering layer. -/
def initializeMenu (m : PaginationMenu) : PaginationMenu :=
  if m.isInitialized then m
  else
    let m1 :=
      match m.definition.onSessionStart with
      | some f => { m with sessionData := f m.params }
      | none => m
    { m1 with isInitialized := true }

/-- JS Array.prototype.slice index resolution: negative indices count from
    the end, then the index is clamped into [0, len]. -/
def jsSliceIdx (len : Nat) (i : Int) : Nat :=
  if i < 0 then ((len : Int) + i).toNat else (min i (len : Int)).toNat

/-- JS `arr.slice(start, stop)`. -/
def jsSlice (l : List String) (start stop : Int) : List String :=
  (l.take (jsSliceIdx l.length stop)).drop (jsSliceIdx l.length start)

/-- PaginationMenu.calculatePageCount (lines 89-94):
    `Math.max(1, Math.ceil(items.length / Math.max(1, perPage)))`. The inner
    clamp makes the divisor the natural number `(max 1 perPage).toNat >= 1`,
    and for naturals `Math.ceil(n / d) = (n + d - 1) / d`. -/
def calculatePageCount (itemsLen : Nat) (perPage : Int) : Nat :=
  let d := (max 1 perPage).toNat
  max 1 ((itemsLen + d - 1) / d)

/-- The observable data PaginationMenu.buildPage computes for a page: the
    slice `items.slice(pageNumber*perPage, min(pageNumber*perPage+perPage,
    items.length))` plus navigation when pageCount > 1. A function of the
    perPage/pageCount/items fields only. -/
def buildPageAux (perPage : Int) (pageCount : Nat) (items : List String)
    (pageNumber : Nat) : Page :=
  let startIdx : Int := (pageNumber : Int) * perPage
  let endIdx : Int := min (startIdx + perPage) (items.length : Int)
  ⟨pageNumber, jsSlice items startIdx endIdx, decide (1 < pageCount)⟩

/-- PaginationMenu.buildPage (lines 99-158), restricted to its observable
    data. -/
def buildPage (m : PaginationMenu) (pageNumber : Nat) : Page :=
  buildPageAux m.definition.perPage m.pageCount m.items pageNumber

/-- PaginationMenu.getPage (lines 238-248): return the cached page if
    present, otherwise build it and cache it. -/
def getPage (m : PaginationMenu) (pageNumber : Nat) : PaginationMenu × Page :=
  match alistGet m.pageCache pageNumber with
  | some pg => (m, pg)
  | none =>
    let pg := buildPage m pageNumber
    ({ m with pageCache := alistSet m.pageCache pageNumber pg }, pg)

/-- PaginationMenu.renderForUser / getPageForUser: the page at the viewer's
    cursor. -/
def renderForUser (m : PaginationMenu) (userId : String) : PaginationMenu × Page :=
  getPage m (getUserPage m userId)

/-- PaginationMenu.preloadAllPages: build and cache every page 0..pageCount-1
    (each build reads the same items snapshot; only the cache is written). -/
def preloadAllPages (m : PaginationMenu) : PaginationMenu :=
  { m with
      pageCache :=
        (List.range m.pageCount).foldl
          (fun c i => alistSet c i (buildPage m i)) m.pageCache }

/-- PaginationMenu.render (lines 270-283): initialize, fetch, recompute the
    page count, clear the cache, optionally preload, return page 0. -/
def render (m : PaginationMenu) : PaginationMenu × Page :=
  let m1 := initializeMenu m
  let m2 := { m1 with items := m1.definition.fetch m1.params }
  let m3 := { m2 with pageCount := calculatePageCount m2.items.length m2.definition.perPage }
  let m4 := { m3 with pageCache := [] }
  let m5 := if m4.preloadAll then preloadAllPages m4 else m4
  getPage m5 0

/-- PaginationMenu.goToPage (lines 288-298): validate
    `0 <= pageNumber < pageCount` (else throw, before any mutation), set the
    viewer's cursor, return the page. -/
def goToPage (m : PaginationMenu) (userId : String) (pageNumber : Int) :
    PaginationMenu × Except String Page :=
  if pageNumber < 0 ∨ (m.pageCount : Int) ≤ pageNumber then
    (m, Except.error ("Invalid page number: " ++ intToString pageNumber))
  else
    let m1 := setUserPage m userId pageNumber.toNat
    let r := getPage m1 pageNumber.toNat
    (r.1, Except.ok r.2)

/-- PaginationMenu.nextPage: no-op signal (null) at the upper boundary. -/
def nextPage (m : PaginationMenu) (userId : String) : PaginationMenu × Option Page :=
  let currentPage := getUserPage m userId
  if m.pageCount - 1 ≤ currentPage then (m, none)
  else
    let m1 := setUserPage m userId (currentPage + 1)
    let r := getPage m1 (currentPage + 1)
    (r.1, some r.2)

/-- PaginationMenu.previousPage: no-op signal (null) at the lower boundary. -/
def previousPage (m : PaginationMenu) (userId : String) : PaginationMenu × Option Page :=
  let currentPage := getUserPage m userId
  if currentPage = 0 then (m, none)
  else
    let m1 := setUserPage m userId (currentPage - 1)
    let r := getPage m1 (currentPage - 1)
    (r.1, some r.2)

/-- BaseMenu.updateUserMessage, restricted to its session-state effect: skip
    viewers without a stored message id (the manager stores `""` until the
    first reply is recorded); otherwise render the viewer's page, which may
    populate the page cache. Delivery itself is out of scope. -/
def updateUserMessage (m : PaginationMenu) (userId : String) : PaginationMenu :=
  match alistGet m.userSessions userId with
  | none => m
  | some us => if us.messageId = "" then m else (renderForUser m userId).1

/-- BaseMenu.broadcastUpdate: update every attached viewer in order. -/
def broadcastUpdate (m : PaginationMenu) : PaginationMenu :=
  (m.userSessions.map Prod.fst).foldl updateUserMessage m

/-- The items-refresh block of PaginationMenu.refetch (lines 349-354): re-run
    fetch, recompute the page count, clear the whole page cache. -/
def refreshItems (m : PaginationMenu) : PaginationMenu :=
  { m with
      items := m.definition.fetch m.params,
      pageCount := calculatePageCount (m.definition.fetch m.params).length m.definition.perPage,
      pageCache := [] }

/-- The cursor-clamping loop of PaginationMenu.refetch (lines 356-361): any
    viewer whose cursor is at or past the page count is moved to
    `Math.max(0, pageCount - 1)`. -/
def clampUserPages (m : PaginationMenu) : PaginationMenu :=
  { m with
      userSessions := m.userSessions.map fun kv =>
        if m.pageCount ≤ kv.2.currentPage then
          (kv.1, { kv.2 with currentPage := m.pageCount - 1 })
        else kv }

/-- PaginationMenu.refetch(items?) (lines 348-369): when `items` is truthy,
    refresh the item collection; then clamp every viewer's cursor, optionally
    preload, and broadcast. `none` models the call `refetch()` with the
    argument left undefined (falsy). -/
def refetch (m : PaginationMenu) (items : Option Bool) : PaginationMenu :=
  let m1 := if items.getD false then refreshItems m else m
  let m2 := clampUserPages m1
  let m3 := if m2.preloadAll then preloadAllPages m2 else m2
  broadcastUpdate m3

/-! ## The alternate base-session variant (src/unnamed/part_008) -/

/-- The alternate BaseMenu of part_008 tracks a plain viewer set; its
    constructor adds the creator. Only the fields canInteract reads are
    modelled. -/
structure BaseMenuV where
  creatorId : String
  viewers : List String
  mode : Option SessionMode
deriving DecidableEq, Repr

def isViewer (m : BaseMenuV) (userId : String) : Bool :=
  m.viewers.contains userId

/-- canInteract of the part_008 variant (lines 108-127): it has an explicit
    "locked" case returning `userId === creatorId`. -/
def canInteractV (m : BaseMenuV) (userId : String) : Bool :=
  match m.mode.getD SessionMode.shared with
  | SessionMode.shared => isViewer m userId
  | SessionMode.privateMode => decide (userId = m.creatorId)
  | SessionMode.locked => decide (userId = m.creatorId)

/-! ## Session manager (src/manager.ts) -/

/-- MenuManager state: registered definitions, live sessions, armed TTL
    timers (modelled by the set of session ids with a pending timer), plus a
    ghost log of the sessions whose onSessionEnd hook has run. -/
structure ManagerState where
  menus : List (String × MenuDefinition) := []
  sessions : List (String × PaginationMenu) := []
  sessionTimers : List String := []
  destroyLog : List String := []

/-- MenuManager.register: duplicate names are skipped with a warning, no
    other validation is performed. -/
def register (st : ManagerState) (menu : MenuDefinition) : ManagerState :=
  if (alistGet st.menus menu.name).isSome then st
  else { st with menus := alistSet st.menus menu.name menu }

/-- The UserSession object the manager attaches:
    `\x7buserId, messageId: "", channelId, currentPage: 0, ephemeral, createdAt: Date.now()\x7d`. -/
def newUserSession (userId channelId : String) (ephemeral : Bool) (now : Nat) : UserSession :=
  ⟨userId, "", channelId, 0, ephemeral, now⟩

/-- setupTTL: arm a timer for the session (the timer calls endSession when it
    fires). The guard models `if (ttl)`: no timer for a missing or zero ttl. -/
def armTTL (timers : List String) (sessionId : String) (ttl : Option Nat) : List String :=
  match ttl with
  | some t => if t ≠ 0 then (if sessionId ∈ timers then timers else timers ++ [sessionId]) else timers
  | none => timers

/-- The freshly constructed, initialized session with the creator attached
    (the menu object the create-new path of createSession stores): construct
    a PaginationMenu (both duck-typing branches construct one; preloadAll is
    only passed in the renderItem branch), initialize it, attach the
    creator's UserSession. -/
def freshMenu (d : MenuDefinition) (userId channelId params : String) (now : Nat)
    (preloadAll : Bool) : PaginationMenu :=
  addUserSession
    (initializeMenu
      { definition := d, sessionId := d.createKey params, params := params,
        creatorId := userId,
        preloadAll := if d.isPagination then preloadAll else false })
    (newUserSession userId channelId (ephemeralOf d) now)

/-- The create-new-session tail of MenuManager.createSession (lines 99-136):
    store the fresh session under the context key and arm the TTL timer.
    Returns the context key the session is stored under. -/
def createNewSession (st : ManagerState) (d : MenuDefinition)
    (userId channelId params : String) (now : Nat) (preloadAll : Bool) :
    ManagerState × Except String String :=
  ({ st with
      sessions := alistSet st.sessions (d.createKey params)
        (freshMenu d userId channelId params now preloadAll),
      sessionTimers := armTTL st.sessionTimers (d.createKey params) (ttlOf d) },
   Except.ok (d.createKey params))

/-- MenuManager.createSession (lines 53-137) against a resolved definition:
    derive the context key; when a session already exists under it, shared
    mode attaches the user (idempotently) and private mode admits only the
    creator; locked mode matches neither branch of the source and falls
    through to creating (and overwriting with) a fresh session. Returns the
    context key identifying the session. -/
def createSessionWithDef (st : ManagerState) (d : MenuDefinition)
    (userId channelId params : String) (now : Nat) (preloadAll : Bool) :
    ManagerState × Except String String :=
  match alistGet st.sessions (d.createKey params), modeOf d with
  | some existingMenu, SessionMode.shared =>
    if hasUserSession existingMenu userId then (st, Except.ok (d.createKey params))
    else
      ({ st with
          sessions := alistSet st.sessions (d.createKey params)
            (addUserSession existingMenu
              (newUserSession userId channelId (ephemeralOf d) now)) },
       Except.ok (d.createKey params))
  | some existingMenu, SessionMode.privateMode =>
    if existingMenu.creatorId ≠ userId then
      (st, Except.error "This menu is currently in use by another user")
    else (st, Except.ok (d.createKey params))
  | some _, SessionMode.locked => createNewSession st d userId channelId params now preloadAll
  | none, _ => createNewSession st d userId channelId params now preloadAll

/-- MenuManager.createSession entry: resolve the definition by name (NotFound
    error when absent), then proceed. -/
def createSession (st : ManagerState) (menuName userId channelId params : String)
    (now : Nat) (preloadAll : Bool) : ManagerState × Except String String :=
  match alistGet st.menus menuName with
  | none => (st, Except.error ("Menu \"" ++ menuName ++ "\" not found. Did you register it?"))
  | some d => createSessionWithDef st d userId channelId params now preloadAll

/-- MenuManager.getAllSessions: the keys of the session table. -/
def getAllSessions (st : ManagerState) : List String :=
  st.sessions.map Prod.fst

/-- BaseMenu.destroy: run the onSessionEnd hook when the definition has one
    (recorded in the ghost destroy log). -/
def destroyMenu (st : ManagerState) (m : PaginationMenu) : ManagerState :=
  if m.definition.onSessionEnd then { st with destroyLog := st.destroyLog ++ [m.sessionId] }
  else st

/-- First half of MenuManager.endSession (lines 158-174), up to and including
    the awaited `menu.destroy()` call: look the session up (warn and stop
    when absent), cancel its TTL timer, run the teardown hook. The boolean
    records whether the session was found, i.e. whether the second half will
    delete it. The split marks the `await` suspension point, during which
    another endSession invocation (e.g. the TTL timer callback) can run. -/
def endSessionPhase1 (st : ManagerState) (sessionId : String) : ManagerState × Bool :=
  match alistGet st.sessions sessionId with
  | none => (st, false)
  | some menu =>
    let st1 := { st with sessionTimers := st.sessionTimers.filter fun k => decide (k ≠ sessionId) }
    (destroyMenu st1 menu, true)

/-- Second half of MenuManager.endSession: the table deletion that runs only
    after the awaited destroy resolved. -/
def endSessionPhase2 (st : ManagerState) (sessionId : String) (found : Bool) : ManagerState :=
  if found then { st with sessions := alistErase st.sessions sessionId } else st

/-- MenuManager.endSession run without interleaving: both halves back to
    back. -/
def endSession (st : ManagerState) (sessionId : String) : ManagerState :=
  let r := endSessionPhase1 st sessionId
  endSessionPhase2 r.1 sessionId r.2

/-! ## Update queue (src/menu-queue.ts) -/

/-- The updateSessionData payload of a menu:update message: either a partial
    record to spread over the current session data or a function of it. -/
inductive UpdateSessionData where
  | record (fields : SessionRecord)
  | fn (f : SessionRecord → SessionRecord)

/-- The refresh field of a menu:update message. -/
structure RefreshOptions where
  items : Option Bool := none
  sessionData : Option Bool := none

/-- Wire message `menu:update` (types/queue.ts MenuUpdateMessage). -/
structure MenuUpdateMessage where
  menuName : String
  contextKey : String
  refresh : Option RefreshOptions := none
  updateSessionData : Option UpdateSessionData := none
  timestamp : Nat := 0

/-- MenuQueue.handleMenuUpdate (src/menu-queue.ts lines 36-83): resolve the
    session (warn and stop when missing), apply updateSessionData, re-run
    onSessionStart when refresh.sessionData is set (a missing definition then
    raises a TypeError that the surrounding try/catch turns into aborting the
    handler, after the already-applied session-data mutation), and finally —
    when `refresh?.items !== false` — call `refetch()` WITH NO ARGUMENT, so
    refetch receives `items = undefined`. -/
def handleMenuUpdate (st : ManagerState) (msg : MenuUpdateMessage) : ManagerState :=
  match alistGet st.sessions msg.contextKey with
  | none => st
  | some menu =>
    let menu1 :=
      match msg.updateSessionData with
      | none => menu
      | some (UpdateSessionData.fn f) => { menu with sessionData := f menu.sessionData }
      | some (UpdateSessionData.record r) =>
        { menu with sessionData := recordMerge menu.sessionData r }
    let sdFlag := ((msg.refresh.bind RefreshOptions.sessionData).getD false)
    match sdFlag, alistGet st.menus msg.menuName with
    | true, none =>
      { st with sessions := alistSet st.sessions msg.contextKey menu1 }
    | true, some d =>
      let menu2 :=
        match d.onSessionStart with
        | some f => { menu1 with sessionData := f menu1.params }
        | none => menu1
      let itemsFlag :=
        match msg.refresh with
        | none => true
        | some r => r.items ≠ some false
      let menu3 := if itemsFlag then refetch menu2 none else menu2
      { st with sessions := alistSet st.sessions msg.contextKey menu3 }
    | false, _ =>
      let itemsFlag :=
        match msg.refresh with
        | none => true
        | some r => r.items ≠ some false
      let menu3 := if itemsFlag then refetch menu1 none else menu1
      { st with sessions := alistSet st.sessions msg.contextKey menu3 }

/-! ## Invariants and concrete instances -/

/-- Every cached page agrees with the page freshly built from the session's
    current items, perPage and pageCount (the §3 page-cache invariant). -/
def CacheConsistent (m : PaginationMenu) : Prop :=
  ∀ e ∈ m.pageCache, e.2 = buildPageAux m.definition.perPage m.pageCount m.items e.1

/-- A definition with a zero perPage the manager's register path accepts
    unvalidated. -/
def c10Def : MenuDefinition :=
  { name := "zeroPerPage", createKey := fun p => p, perPage := 0 }

/-- A shared-mode paginated definition used for concrete instances. -/
def sharedDef : MenuDefinition :=
  { name := "inbox", createKey := fun p => "ctx-" ++ p, perPage := 2,
    fetch := fun _ => ["a", "b", "c"], onSessionEnd := true,
    sessionOptions := some { mode := some SessionMode.shared, ttl := some 100 } }

/-- A private-mode definition used for concrete instances. -/
def privateDef : MenuDefinition :=
  { name := "vault", createKey := fun p => "ctx-" ++ p, perPage := 2,
    fetch := fun _ => ["a"],
    sessionOptions := some { mode := some SessionMode.privateMode } }

/-- A locked-mode definition used for concrete instances. -/
def lockedDef : MenuDefinition :=
  { name := "bulletin", createKey := fun p => "ctx-" ++ p, perPage := 2,
    fetch := fun _ => ["a"],
    sessionOptions := some { mode := some SessionMode.locked } }

/-- A live locked-mode session whose creator "alice" is attached as a
    viewer. -/
def c7Locked : PaginationMenu :=
  { definition := lockedDef, sessionId := "ctx-1", params := "1", creatorId := "alice",
    isInitialized := true,
    userSessions := [("alice", ⟨"alice", "m1", "ch", 0, false, 0⟩)] }

/-- A pagination session with two users attached, a cached page 0, and a
    cursor for goToPage experiments. -/
def c5Menu : PaginationMenu :=
  { definition := sharedDef, sessionId := "ctx-1", params := "1", creatorId := "alice",
    isInitialized := true,
    userSessions := [("alice", ⟨"alice", "m1", "ch", 0, false, 0⟩)],
    items := ["a", "b", "c"], pageCount := 2, pageCache := [] }

/-- A live private-mode session created by "alice", stored under its context
    key. -/
def c8Menu : PaginationMenu :=
  { definition := privateDef, sessionId := "ctx-7", params := "7", creatorId := "alice",
    isInitialized := true,
    userSessions := [("alice", ⟨"alice", "m1", "ch", 0, false, 0⟩)] }

def c8State : ManagerState :=
  { menus := [("vault", privateDef)], sessions := [("ctx-7", c8Menu)] }

/-- A live session for the endSession experiments: stored under key "k",
    with an armed TTL timer and an onSessionEnd hook. -/
def c6Menu : PaginationMenu :=
  { definition := sharedDef, sessionId := "k", params := "1", creatorId := "alice",
    isInitialized := true,
    userSessions := [("alice", ⟨"alice", "m1", "ch", 0, false, 0⟩)],
    items := ["a", "b", "c"], pageCount := 2 }

def c6State : ManagerState :=
  { menus := [("inbox", sharedDef)], sessions := [("k", c6Menu)],
    sessionTimers := ["k"], destroyLog := [] }

/-- The interleaved double invocation of endSession on c6State: an explicit
    call reaches its await-suspension point (phase 1), the TTL timer callback
    then runs to completion during that await is modelled by the second
    phase-1/phase-2 pair, and finally the first call resumes. -/
def c6Interleaved : ManagerState :=
  let a := endSessionPhase1 c6State "k"
  let b := endSessionPhase1 a.1 "k"
  let s3 := endSessionPhase2 b.1 "k" a.2
  endSessionPhase2 s3 "k" b.2

/-- A pagination definition whose data source has grown to three items. -/
def c9Def : MenuDefinition :=
  { name := "board", createKey := fun _ => "k", perPage := 1,
    fetch := fun _ => ["x", "y", "z"] }

/-- The page the session cached before the update arrived, built from the
    stale two-item list. -/
def c9OldPage : Page := buildPageAux 1 2 ["a", "b"] 0

/-- A live session holding the stale items and the stale cached page. -/
def c9Menu : PaginationMenu :=
  { definition := c9Def, sessionId := "k", params := "p", creatorId := "alice",
    isInitialized := true,
    userSessions := [("alice", ⟨"alice", "m1", "ch", 0, false, 0⟩)],
    items := ["a", "b"], pageCount := 2, pageCache := [(0, c9OldPage)] }

def c9State : ManagerState :=
  { menus := [("board", c9Def)], sessions := [("k", c9Menu)] }

/-- A menu:update message explicitly requesting an item refresh. -/
def c9Msg : MenuUpdateMessage :=
  { menuName := "board", contextKey := "k",
    refresh := some { items := some true, sessionData := some false } }

/-! ## Helper lemmas: association lists -/

theorem alistGet_set_self {κ α : Type} [DecidableEq κ] (l : List (κ × α)) (k : κ) (v : α) :
    alistGet (alistSet l k v) k = some v := by
  induction l with
  | nil => simp [alistGet, alistSet]
  | cons e rest ih =>
    by_cases h : e.1 = k
    · simp [alistSet, alistGet, h]
    · simp [alistSet, alistGet, h, ih]

theorem alistGet_set_ne {κ α : Type} [DecidableEq κ] (l : List (κ × α)) (k k' : κ) (v : α)
    (h : k' ≠ k) : alistGet (alistSet l k v) k' = alistGet l k' := by
  induction l with
  | nil => simp [alistGet, alistSet, Ne.symm h]
  | cons e rest ih =>
    by_cases he : e.1 = k
    · simp [alistSet, alistGet, he, Ne.symm h]
    · by_cases he' : e.1 = k'
      · simp [alistSet, alistGet, he, he', h]
      · simp [alistSet, alistGet, he, he', ih]

theorem alistGet_mem {κ α : Type} [DecidableEq κ] {l : List (κ × α)} {k : κ} {v : α}
    (h : alistGet l k = some v) : (k, v) ∈ l := by
  induction l with
  | nil => simp [alistGet] at h
  | cons e rest ih =>
    by_cases he : e.1 = k
    · have h2 : e.2 = v := by simpa [alistGet, he] using h
      have he' : e = (k, v) := by
        cases e
        simp_all
      rw [← he']
      exact List.mem_cons_self _ _
    · have h2 : alistGet rest k = some v := by simpa [alistGet, he] using h
      exact List.mem_cons_of_mem _ (ih h2)

theorem mem_alistSet {κ α : Type} [DecidableEq κ] {l : List (κ × α)} {k : κ} {v : α} {e : κ × α}
    (h : e ∈ alistSet l k v) : e = (k, v) ∨ e ∈ l := by
  induction l with
  | nil => simpa [alistSet] using h
  | cons e' rest ih =>
    by_cases he : e'.1 = k
    · simp [alistSet, he] at h
      rcases h with h | h
      · exact Or.inl h
      · exact Or.inr (List.mem_cons_of_mem _ h)
    · simp [alistSet, he] at h
      rcases h with h | h
      · exact Or.inr (by simp [h])
      · rcases ih h with h' | h'
        · exact Or.inl h'
        · exact Or.inr (List.mem_cons_of_mem _ h')

theorem alistGet_erase_self {κ α : Type} [DecidableEq κ] (l : List (κ × α)) (k : κ) :
    alistGet (alistErase l k) k = none := by
  induction l with
  | nil => rfl
  | cons e rest ih =>
    by_cases he : e.1 = k
    · simpa [alistErase, he] using ih
    · simpa [alistErase, List.filter, he, alistGet] using ih

theorem not_mem_map_fst_alistErase {κ α : Type} [DecidableEq κ] (l : List (κ × α)) (k : κ) :
    k ∉ (alistErase l k).map Prod.fst := by
  intro hmem
  rcases List.mem_map.1 hmem with ⟨e, he, hfst⟩
  have hne : e.1 ≠ k := by simpa using (List.mem_filter.1 he).2
  exact hne hfst

/-! ## Helper lemmas: pagination-state field preservation -/

theorem getPage_fst_items (m : PaginationMenu) (k : Nat) : (getPage m k).1.items = m.items := by
  unfold getPage; cases alistGet m.pageCache k <;> simp

theorem getPage_fst_pageCount (m : PaginationMenu) (k : Nat) :
    (getPage m k).1.pageCount = m.pageCount := by
  unfold getPage; cases alistGet m.pageCache k <;> simp

theorem getPage_fst_definition (m : PaginationMenu) (k : Nat) :
    (getPage m k).1.definition = m.definition := by
  unfold getPage; cases alistGet m.pageCache k <;> simp

theorem getPage_fst_userSessions (m : PaginationMenu) (k : Nat) :
    (getPage m k).1.userSessions = m.userSessions := by
  unfold getPage; cases alistGet m.pageCache k <;> simp

theorem getPage_snd (m : PaginationMenu) (k : Nat) (h : CacheConsistent m) :
    (getPage m k).2 = buildPageAux m.definition.perPage m.pageCount m.items k := by
  unfold getPage
  cases hc : alistGet m.pageCache k with
  | none => simp [buildPage]
  | some pg => simpa using h (k, pg) (alistGet_mem hc)

theorem getPage_cacheConsistent (m : PaginationMenu) (k : Nat) (h : CacheConsistent m) :
    CacheConsistent (getPage m k).1 := by
  unfold getPage
  cases hc : alistGet m.pageCache k with
  | none =>
    intro e he
    simp at he
    rcases mem_alistSet he with rfl | he'
    · simp [buildPage]
    · simpa using h e he'
  | some pg => simpa using h

theorem updateUserMessage_items (m : PaginationMenu) (u : String) :
    (updateUserMessage m u).items = m.items := by
  unfold updateUserMessage renderForUser
  cases alistGet m.userSessions u with
  | none => rfl
  | some us =>
    by_cases h : us.messageId = "" <;> simp [h, getPage_fst_items]

theorem updateUserMessage_pageCount (m : PaginationMenu) (u : String) :
    (updateUserMessage m u).pageCount = m.pageCount := by
  unfold updateUserMessage renderForUser
  cases alistGet m.userSessions u with
  | none => rfl
  | some us =>
    by_cases h : us.messageId = "" <;> simp [h, getPage_fst_pageCount]

theorem updateUserMessage_definition (m : PaginationMenu) (u : String) :
    (updateUserMessage m u).definition = m.definition := by
  unfold updateUserMessage renderForUser
  cases alistGet m.userSessions u with
  | none => rfl
  | some us =>
    by_cases h : us.messageId = "" <;> simp [h, getPage_fst_definition]

theorem updateUserMessage_userSessions (m : PaginationMenu) (u : String) :
    (updateUserMessage m u).userSessions = m.userSessions := by
  unfold updateUserMessage renderForUser
  cases alistGet m.userSessions u with
  | none => rfl
  | some us =>
    by_cases h : us.messageId = "" <;> simp [h, getPage_fst_userSessions]

theorem updateUserMessage_cacheConsistent (m : PaginationMenu) (u : String)
    (h : CacheConsistent m) : CacheConsistent (updateUserMessage m u) := by
  unfold updateUserMessage renderForUser
  cases alistGet m.userSessions u with
  | none => exact h
  | some us =>
    by_cases hm : us.messageId = "" <;> simp [hm]
    · exact h
    · exact getPage_cacheConsistent _ _ h

theorem foldl_updateUserMessage_items (users : List String) (m : PaginationMenu) :
    (users.foldl updateUserMessage m).items = m.items := by
  induction users generalizing m with
  | nil => rfl
  | cons u us ih => rw [List.foldl_cons, ih, updateUserMessage_items]

theorem foldl_updateUserMessage_pageCount (users : List String) (m : PaginationMenu) :
    (users.foldl updateUserMessage m).pageCount = m.pageCount := by
  induction users generalizing m with
  | nil => rfl
  | cons u us ih => rw [List.foldl_cons, ih, updateUserMessage_pageCount]

theorem foldl_updateUserMessage_definition (users : List String) (m : PaginationMenu) :
    (users.foldl updateUserMessage m).definition = m.definition := by
  induction users generalizing m with
  | nil => rfl
  | cons u us ih => rw [List.foldl_cons, ih, updateUserMessage_definition]

theorem foldl_updateUserMessage_userSessions (users : List String) (m : PaginationMenu) :
    (users.foldl updateUserMessage m).userSessions = m.userSessions := by
  induction users generalizing m with
  | nil => rfl
  | cons u us ih => rw [List.foldl_cons, ih, updateUserMessage_userSessions]

theorem foldl_updateUserMessage_cacheConsistent (users : List String) (m : PaginationMenu)
    (h : CacheConsistent m) : CacheConsistent (users.foldl updateUserMessage m) := by
  induction users generalizing m with
  | nil => exact h
  | cons u us ih => exact ih _ (updateUserMessage_cacheConsistent _ _ h)

theorem broadcastUpdate_items (m : PaginationMenu) : (broadcastUpdate m).items = m.items :=
  foldl_updateUserMessage_items _ _

theorem broadcastUpdate_pageCount (m : PaginationMenu) :
    (broadcastUpdate m).pageCount = m.pageCount :=
  foldl_updateUserMessage_pageCount _ _

theorem broadcastUpdate_definition (m : PaginationMenu) :
    (broadcastUpdate m).definition = m.definition :=
  foldl_updateUserMessage_definition _ _

theorem broadcastUpdate_userSessions (m : PaginationMenu) :
    (broadcastUpdate m).userSessions = m.userSessions :=
  foldl_updateUserMessage_userSessions _ _

theorem broadcastUpdate_cacheConsistent (m : PaginationMenu) (h : CacheConsistent m) :
    CacheConsistent (broadcastUpdate m) :=
  foldl_updateUserMessage_cacheConsistent _ _ h

theorem mem_foldl_alistSet_buildPage (m : PaginationMenu) (ns : List Nat)
    (c0 : List (Nat × Page)) (e : Nat × Page)
    (h : e ∈ ns.foldl (fun c i => alistSet c i (buildPage m i)) c0) :
    e ∈ c0 ∨ ∃ i, e = (i, buildPage m i) := by
  induction ns generalizing c0 with
  | nil => exact Or.inl h
  | cons i is ih =>
    rw [List.foldl_cons] at h
    rcases ih _ h with h' | h'
    · rcases mem_alistSet h' with h'' | h''
      · exact Or.inr ⟨i, h''⟩
      · exact Or.inl h''
    · exact Or.inr h'

theorem preloadAllPages_cacheConsistent (m : PaginationMenu) (h : CacheConsistent m) :
    CacheConsistent (preloadAllPages m) := by
  intro e he
  simp only [preloadAllPages] at he ⊢
  rcases mem_foldl_alistSet_buildPage m _ _ _ he with h' | ⟨i, rfl⟩
  · simpa using h e h'
  · simp [buildPage]

/-! ## Helper lemmas: cursors, arithmetic, manager steps -/

theorem setUserPage_items (m : PaginationMenu) (u : String) (p : Nat) :
    (setUserPage m u p).items = m.items := by
  unfold setUserPage; cases alistGet m.userSessions u <;> simp

theorem setUserPage_pageCount (m : PaginationMenu) (u : String) (p : Nat) :
    (setUserPage m u p).pageCount = m.pageCount := by
  unfold setUserPage; cases alistGet m.userSessions u <;> simp

theorem setUserPage_definition (m : PaginationMenu) (u : String) (p : Nat) :
    (setUserPage m u p).definition = m.definition := by
  unfold setUserPage; cases alistGet m.userSessions u <;> simp

theorem setUserPage_pageCache (m : PaginationMenu) (u : String) (p : Nat) :
    (setUserPage m u p).pageCache = m.pageCache := by
  unfold setUserPage; cases alistGet m.userSessions u <;> simp

theorem setUserPage_cacheConsistent (m : PaginationMenu) (u : String) (p : Nat)
    (h : CacheConsistent m) : CacheConsistent (setUserPage m u p) := by
  intro e he
  rw [setUserPage_pageCache] at he
  rw [setUserPage_definition, setUserPage_pageCount, setUserPage_items]
  exact h e he

theorem getUserPage_setUserPage_self (m : PaginationMenu) (u : String) (p : Nat)
    (hu : hasUserSession m u = true) : getUserPage (setUserPage m u p) u = p := by
  unfold hasUserSession at hu
  rcases Option.isSome_iff_exists.1 hu with ⟨s, hs⟩
  unfold setUserPage getUserPage
  rw [hs]
  simp [alistGet_set_self]

/-- For a positive perPage divisor, the JS `Math.ceil(n / p)` value
    `(n + p - 1) / p` is the ceiling of the rational division. -/
theorem ceil_div_eq_nat_div (n p : Nat) (hp : 0 < p) :
    ⌈(n : ℚ) / (p : ℚ)⌉₊ = (n + p - 1) / p := by
  rcases Nat.eq_zero_or_pos n with hn | hn
  · subst hn
    have : (p - 1) / p = 0 := Nat.div_eq_of_lt (by omega)
    simp [this]
  · have hk1 : 1 ≤ (n + p - 1) / p := by
      rw [Nat.le_div_iff_mul_le hp]
      omega
    have ha : ((n + p - 1) / p) * p ≤ n + p - 1 := Nat.div_mul_le_self _ _
    have hb : n + p - 1 < ((n + p - 1) / p + 1) * p := by
      rw [← Nat.div_lt_iff_lt_mul hp]
      omega
    have hb' : n + p - 1 < ((n + p - 1) / p) * p + p := by
      calc n + p - 1 < ((n + p - 1) / p + 1) * p := hb
        _ = ((n + p - 1) / p) * p + p := by rw [Nat.add_mul, one_mul]
    have hub : n ≤ ((n + p - 1) / p) * p := by
      generalize hA : ((n + p - 1) / p) * p = A at hb' ⊢
      omega
    have hlb : ((n + p - 1) / p - 1) * p < n := by
      rw [Nat.sub_one_mul]
      generalize hA : ((n + p - 1) / p) * p = A at ha ⊢
      omega
    rw [Nat.ceil_eq_iff (by omega)]
    have hpq : (0 : ℚ) < (p : ℚ) := by exact_mod_cast hp
    constructor
    · rw [lt_div_iff₀ hpq]
      exact_mod_cast hlb
    · rw [div_le_iff₀ hpq]
      exact_mod_cast hub

theorem createSession_of_menu (st : ManagerState) (menuName u ch params : String)
    (now : Nat) (pre : Bool) (d : MenuDefinition)
    (hd : alistGet st.menus menuName = some d) :
    createSession st menuName u ch params now pre =
      createSessionWithDef st d u ch params now pre := by
  unfold createSession
  rw [hd]

theorem createSessionWithDef_fresh (st : ManagerState) (d : MenuDefinition)
    (u ch params : String) (now : Nat) (pre : Bool)
    (hfresh : alistGet st.sessions (d.createKey params) = none) :
    createSessionWithDef st d u ch params now pre =
      createNewSession st d u ch params now pre := by
  unfold createSessionWithDef
  rw [hfresh]

theorem createSessionWithDef_shared_attached (st : ManagerState) (d : MenuDefinition)
    (u ch params : String) (now : Nat) (pre : Bool) (menu : PaginationMenu)
    (hsess : alistGet st.sessions (d.createKey params) = some menu)
    (hmode : modeOf d = SessionMode.shared)
    (hu : hasUserSession menu u = true) :
    createSessionWithDef st d u ch params now pre = (st, Except.ok (d.createKey params)) := by
  unfold createSessionWithDef
  rw [hsess, hmode]
  simp [hu]

theorem createSessionWithDef_shared_join (st : ManagerState) (d : MenuDefinition)
    (u ch params : String) (now : Nat) (pre : Bool) (menu : PaginationMenu)
    (hsess : alistGet st.sessions (d.createKey params) = some menu)
    (hmode : modeOf d = SessionMode.shared)
    (hu : hasUserSession menu u = false) :
    createSessionWithDef st d u ch params now pre =
      ({ st with
          sessions := alistSet st.sessions (d.createKey params)
            (addUserSession menu (newUserSession u ch (ephemeralOf d) now)) },
       Except.ok (d.createKey params)) := by
  unfold createSessionWithDef
  rw [hsess, hmode]
  simp [hu]

theorem createSessionWithDef_private_denied (st : ManagerState) (d : MenuDefinition)
    (u ch params : String) (now : Nat) (pre : Bool) (menu : PaginationMenu)
    (hsess : alistGet st.sessions (d.createKey params) = some menu)
    (hmode : modeOf d = SessionMode.privateMode)
    (hu : menu.creatorId ≠ u) :
    createSessionWithDef st d u ch params now pre =
      (st, Except.error "This menu is currently in use by another user") := by
  unfold createSessionWithDef
  rw [hsess, hmode]
  simp [hu]

theorem createSessionWithDef_private_creator (st : ManagerState) (d : MenuDefinition)
    (u ch params : String) (now : Nat) (pre : Bool) (menu : PaginationMenu)
    (hsess : alistGet st.sessions (d.createKey params) = some menu)
    (hmode : modeOf d = SessionMode.privateMode)
    (hu : menu.creatorId = u) :
    createSessionWithDef st d u ch params now pre =
      (st, Except.ok (d.createKey params)) := by
  unfold createSessionWithDef
  rw [hsess, hmode]
  simp [hu]

theorem initializeMenu_userSessions (m : PaginationMenu) :
    (initializeMenu m).userSessions = m.userSessions := by
  unfold initializeMenu
  by_cases h : m.isInitialized <;> cases m.definition.onSessionStart <;> simp [h]

theorem endSession_of_found (st : ManagerState) (sid : String) (m : PaginationMenu)
    (h : alistGet st.sessions sid = some m) :
    endSession st sid =
      { st with
          sessions := alistErase st.sessions sid,
          sessionTimers := st.sessionTimers.filter fun k => decide (k ≠ sid),
          destroyLog :=
            st.destroyLog ++ (if m.definition.onSessionEnd then [m.sessionId] else []) } := by
  unfold endSession endSessionPhase1 endSessionPhase2 destroyMenu
  rw [h]
  by_cases hd : m.definition.onSessionEnd <;> simp [hd]

theorem endSession_of_missing (st : ManagerState) (sid : String)
    (h : alistGet st.sessions sid = none) : endSession st sid = st := by
  unfold endSession endSessionPhase1 endSessionPhase2
  rw [h]
  simp

theorem getUserPage_eq_of_userSessions (a b : PaginationMenu) (u : String)
    (h : a.userSessions = b.userSessions) : getUserPage a u = getUserPage b u := by
  unfold getUserPage
  rw [h]

theorem preloadAllPages_items (m : PaginationMenu) : (preloadAllPages m).items = m.items := rfl

theorem preloadAllPages_pageCount (m : PaginationMenu) :
    (preloadAllPages m).pageCount = m.pageCount := rfl

theorem preloadAllPages_definition (m : PaginationMenu) :
    (preloadAllPages m).definition = m.definition := rfl

theorem preloadAllPages_userSessions (m : PaginationMenu) :
    (preloadAllPages m).userSessions = m.userSessions := rfl

theorem clampUserPages_pageCount (m : PaginationMenu) :
    (clampUserPages m).pageCount = m.pageCount := rfl

theorem freshMenu_userSessions (d : MenuDefinition) (u ch params : String) (now : Nat)
    (pre : Bool) :
    (freshMenu d u ch params now pre).userSessions
      = [(u, newUserSession u ch (ephemeralOf d) now)] := by
  unfold freshMenu addUserSession
  rw [initializeMenu_userSessions]
  rfl

/-! ## Claim theorems -/

/-- Claim C2: for every item count n and every perPage > 0, the stored page
    count computed by PaginationMenu.calculatePageCount equals
    max(1, ceil(n / perPage)); in particular it is at least 1, so page 0
    always exists even for zero items. -/
theorem c2_pageCount_eq_ceil (n p : Nat) (hp : 0 < p) :
    calculatePageCount n (p : Int) = max 1 ⌈(n : ℚ) / (p : ℚ)⌉₊
    ∧ 1 ≤ calculatePageCount n (p : Int) := by
  have hmax : ((max 1 (p : Int)).toNat) = p := by
    rw [max_eq_right (by exact_mod_cast hp : (1 : Int) ≤ (p : Int))]
    rfl
  constructor
  · unfold calculatePageCount
    rw [hmax, ceil_div_eq_nat_div n p hp]
  · exact le_max_left _ _

theorem c2_pageCount_eq_ceil_witness :
    0 < 3 ∧ (calculatePageCount 7 ((3 : Nat) : Int) = max 1 ⌈((7 : Nat) : ℚ) / ((3 : Nat) : ℚ)⌉₊
      ∧ 1 ≤ calculatePageCount 7 ((3 : Nat) : Int)) :=
  ⟨by decide, c2_pageCount_eq_ceil 7 3 (by decide)⟩

/-- Claim C10: the page-count computation is total and safe for EVERY perPage
    value, because the divisor is clamped by Math.max(1, perPage); the result
    is always a well-defined natural number at least 1. The manager's
    register path stores a definition with perPage = 0 without any
    validation. -/
theorem c10_pageCount_total_and_register_unvalidated :
    (∀ (n : Nat) (perPage : Int), 1 ≤ calculatePageCount n perPage)
    ∧ alistGet (register { } c10Def).menus "zeroPerPage" = some c10Def
    ∧ c10Def.perPage = 0 := by
  refine ⟨fun n perPage => le_max_left _ _, rfl, rfl⟩

/-- Claim C1 (code bug): the ids built by createActionId and
    createNavigationActionId round-trip through the router split
    [prefix, sessionId, actionPayload] and parseActionId, and a malformed
    item index parses to null; BUT the ids transformComponentCustomId
    produces for item-scoped actions put `action|index` in the sessionId slot
    and the session id in the payload slot, so the router cannot resolve the
    session and the decoded payload is not the original action: the
    item-action round trip the claim requires fails. -/
theorem c1_item_action_ids_break_roundtrip :
    transformCustomId "delete" "menu" "sess1" ["delete"] (some 3) = "menu:delete|3:sess1"
    ∧ routerSplit "menu:delete|3:sess1" = ("menu", "delete|3", "sess1")
    ∧ willEmitEventRoute "menu" ["sess1"] "menu:delete|3:sess1"
        = RouteResult.sessionMissing "delete|3"
    ∧ parseActionId "sess1" ≠ some ⟨ActionType.user, "delete", some 3⟩
    ∧ createActionId "menu" "sess1" "report" = Except.ok "menu:sess1:report"
    ∧ willEmitEventRoute "menu" ["sess1"] "menu:sess1:report"
        = RouteResult.dispatched "sess1" "report"
    ∧ parseActionId "report" = some ⟨ActionType.user, "report", none⟩
    ∧ createNavigationActionId "menu" "sess1" "next" = "menu:sess1:__nav__next"
    ∧ willEmitEventRoute "menu" ["sess1"] "menu:sess1:__nav__next"
        = RouteResult.dispatched "sess1" "__nav__next"
    ∧ parseActionId "__nav__next" = some ⟨ActionType.navigation, "next", none⟩
    ∧ parseActionId "delete|x" = none
    ∧ parseActionId "delete|" = none := by
  refine ⟨rfl, rfl, rfl, by decide, rfl, rfl, rfl, rfl, rfl, rfl, rfl, rfl⟩

/-- Claim C7 (code bug): canInteract of src/menus/base.ts has no case for
    "locked" mode, so the creator of a locked session — attached as a viewer
    and documented by the definition type as the one user a locked session
    belongs to — cannot interact; the alternate base variant (part_008)
    implements the documented behavior and admits the creator. -/
theorem c7_locked_creator_cannot_interact :
    modeOf c7Locked.definition = SessionMode.locked
    ∧ c7Locked.creatorId = "alice"
    ∧ hasUserSession c7Locked "alice" = true
    ∧ canInteract c7Locked "alice" = false
    ∧ canInteractV ⟨"alice", ["alice"], some SessionMode.locked⟩ "alice" = true := by
  refine ⟨rfl, rfl, rfl, rfl, rfl⟩

/-- Claim C9 (code bug): a menu:update message that requests an item refresh
    (refresh.items = true) reaches `refetch()` WITHOUT the boolean argument,
    so the session's items, page count and page cache are left exactly as
    they were even though the definition's fetch now returns different data;
    only the cursor clamp and the rebroadcast of the stale pages run. -/
theorem c9_update_message_does_not_refetch :
    (alistGet (handleMenuUpdate c9State c9Msg).sessions "k").map PaginationMenu.items
      = some ["a", "b"]
    ∧ (alistGet (handleMenuUpdate c9State c9Msg).sessions "k").map PaginationMenu.pageCount
      = some 2
    ∧ (alistGet (handleMenuUpdate c9State c9Msg).sessions "k").map PaginationMenu.pageCache
      = some [(0, c9OldPage)]
    ∧ c9Def.fetch "p" = ["x", "y", "z"]
    ∧ calculatePageCount (c9Def.fetch "p").length c9Def.perPage = 3
    ∧ (c9Msg.refresh.bind RefreshOptions.items) = some true := by
  refine ⟨rfl, rfl, rfl, rfl, rfl, rfl⟩

/-- Claim C6 counterexample: endSession deletes the session from the table
    only AFTER awaiting the teardown hook, so when the TTL timer callback
    runs during that await (the very scenario the claim covers), both
    invocations find the session and onSessionEnd runs twice — not exactly
    once. -/
theorem c6_interleaved_end_runs_teardown_twice :
    c6Interleaved.destroyLog = ["k", "k"] ∧ c6Interleaved.destroyLog ≠ ["k"] := by
  refine ⟨rfl, by decide⟩

/-- Claim C6 (amended): endSession removes the session right after its
    teardown hook completes; afterwards the session is absent from
    getAllSessions, onSessionEnd has run exactly once more (when the hook is
    present), and a second non-overlapping invocation — an explicit call or
    the TTL timer firing later — is treated as not-found and is a no-op. -/
theorem c6_endSession_sequentially_idempotent (st : ManagerState) (sid : String)
    (m : PaginationMenu) (h : alistGet st.sessions sid = some m) :
    alistGet (endSession st sid).sessions sid = none
    ∧ sid ∉ getAllSessions (endSession st sid)
    ∧ (endSession st sid).destroyLog
        = st.destroyLog ++ (if m.definition.onSessionEnd then [m.sessionId] else [])
    ∧ endSession (endSession st sid) sid = endSession st sid := by
  have e := endSession_of_found st sid m h
  refine ⟨?_, ?_, ?_, ?_⟩
  · rw [e]
    exact alistGet_erase_self _ _
  · rw [e]
    exact not_mem_map_fst_alistErase _ _
  · rw [e]
  · rw [e]
    exact endSession_of_missing _ _ (alistGet_erase_self _ _)

theorem c6_endSession_sequentially_idempotent_witness :
    alistGet c6State.sessions "k" = some c6Menu
    ∧ (alistGet (endSession c6State "k").sessions "k" = none
       ∧ "k" ∉ getAllSessions (endSession c6State "k")
       ∧ (endSession c6State "k").destroyLog
           = c6State.destroyLog
             ++ (if c6Menu.definition.onSessionEnd then [c6Menu.sessionId] else [])
       ∧ endSession (endSession c6State "k") "k" = endSession c6State "k") :=
  ⟨rfl, c6_endSession_sequentially_idempotent c6State "k" c6Menu rfl⟩

/-- Claim C3: refetch with an item refresh replaces the item collection by
    the fresh fetch result, recomputes the page count from it, clamps every
    viewer's cursor strictly below the new page count, and invalidates the
    page cache wholesale, so any subsequent renderForUser — for every viewer
    and cursor position — returns a page built exclusively from the
    post-refetch items. -/
theorem c3_refetch_invalidates_wholesale (m : PaginationMenu) (u : String) :
    (refetch m (some true)).items = m.definition.fetch m.params
    ∧ (refetch m (some true)).pageCount
        = calculatePageCount (m.definition.fetch m.params).length m.definition.perPage
    ∧ (∀ e ∈ (refetch m (some true)).userSessions,
        e.2.currentPage < (refetch m (some true)).pageCount)
    ∧ (renderForUser (refetch m (some true)) u).2
        = buildPageAux (refetch m (some true)).definition.perPage
            (refetch m (some true)).pageCount (refetch m (some true)).items
            (getUserPage (refetch m (some true)) u) := by
  have hr : refetch m (some true)
      = broadcastUpdate (if (clampUserPages (refreshItems m)).preloadAll
          then preloadAllPages (clampUserPages (refreshItems m))
          else clampUserPages (refreshItems m)) := rfl
  have hm2 : CacheConsistent (clampUserPages (refreshItems m)) := by
    intro e he
    simp [clampUserPages, refreshItems] at he
  have hifc : CacheConsistent (if (clampUserPages (refreshItems m)).preloadAll
      then preloadAllPages (clampUserPages (refreshItems m))
      else clampUserPages (refreshItems m)) := by
    by_cases hp : (clampUserPages (refreshItems m)).preloadAll
    · rw [if_pos hp]
      exact preloadAllPages_cacheConsistent _ hm2
    · rw [if_neg hp]
      exact hm2
  have hif_items : (if (clampUserPages (refreshItems m)).preloadAll
      then preloadAllPages (clampUserPages (refreshItems m))
      else clampUserPages (refreshItems m)).items = (clampUserPages (refreshItems m)).items := by
    by_cases hp : (clampUserPages (refreshItems m)).preloadAll
    · rw [if_pos hp, preloadAllPages_items]
    · rw [if_neg hp]
  have hif_pc : (if (clampUserPages (refreshItems m)).preloadAll
      then preloadAllPages (clampUserPages (refreshItems m))
      else clampUserPages (refreshItems m)).pageCount
      = (clampUserPages (refreshItems m)).pageCount := by
    by_cases hp : (clampUserPages (refreshItems m)).preloadAll
    · rw [if_pos hp, preloadAllPages_pageCount]
    · rw [if_neg hp]
  have hif_us : (if (clampUserPages (refreshItems m)).preloadAll
      then preloadAllPages (clampUserPages (refreshItems m))
      else clampUserPages (refreshItems m)).userSessions
      = (clampUserPages (refreshItems m)).userSessions := by
    by_cases hp : (clampUserPages (refreshItems m)).preloadAll
    · rw [if_pos hp, preloadAllPages_userSessions]
    · rw [if_neg hp]
  have hrc : CacheConsistent (refetch m (some true)) := by
    rw [hr]
    exact broadcastUpdate_cacheConsistent _ hifc
  refine ⟨?_, ?_, ?_, ?_⟩
  · rw [hr, broadcastUpdate_items, hif_items]
    rfl
  · rw [hr, broadcastUpdate_pageCount, hif_pc]
    rfl
  · intro e he
    rw [hr, broadcastUpdate_userSessions, hif_us] at he
    rw [hr, broadcastUpdate_pageCount, hif_pc, clampUserPages_pageCount]
    have hpc1 : 1 ≤ (refreshItems m).pageCount := le_max_left _ _
    simp only [clampUserPages] at he
    rcases List.mem_map.1 he with ⟨kv, _, rfl⟩
    by_cases hcl : (refreshItems m).pageCount ≤ kv.2.currentPage
    · rw [if_pos hcl]
      simp only []
      omega
    · rw [if_neg hcl]
      omega
  · unfold renderForUser
    exact getPage_snd _ _ hrc

/-- Claim C5: goToPage is a total validator on the page range: for an
    attached viewer, 0 <= n < pageCount sets the cursor to n and returns the
    page at n; any n outside the range fails with the invalid-page error and
    returns the session state completely unchanged. -/
theorem c5_goToPage_total_on_range (m : PaginationMenu) (u : String) (n : Int)
    (hc : CacheConsistent m) (hu : hasUserSession m u = true) :
    (0 ≤ n ∧ n < (m.pageCount : Int) →
      getUserPage (goToPage m u n).1 u = n.toNat
      ∧ (goToPage m u n).2
          = Except.ok (buildPageAux m.definition.perPage m.pageCount m.items n.toNat))
    ∧ ((n < 0 ∨ (m.pageCount : Int) ≤ n) →
      (goToPage m u n).1 = m
      ∧ (goToPage m u n).2 = Except.error ("Invalid page number: " ++ intToString n)) := by
  constructor
  · rintro ⟨h0, hlt⟩
    have hcond : ¬(n < 0 ∨ (m.pageCount : Int) ≤ n) := by omega
    unfold goToPage
    rw [if_neg hcond]
    constructor
    · simp only []
      rw [getUserPage_eq_of_userSessions _ _ u (getPage_fst_userSessions _ _)]
      exact getUserPage_setUserPage_self m u _ hu
    · simp only []
      have hc1 : CacheConsistent (setUserPage m u n.toNat) :=
        setUserPage_cacheConsistent m u _ hc
      rw [getPage_snd _ _ hc1, setUserPage_definition, setUserPage_pageCount, setUserPage_items]
  · intro hcond
    unfold goToPage
    rw [if_pos hcond]
    exact ⟨rfl, rfl⟩

theorem c5_goToPage_total_on_range_witness :
    CacheConsistent c5Menu ∧ hasUserSession c5Menu "alice" = true
    ∧ ((0 ≤ (1 : Int) ∧ (1 : Int) < (c5Menu.pageCount : Int) →
        getUserPage (goToPage c5Menu "alice" 1).1 "alice" = (1 : Int).toNat
        ∧ (goToPage c5Menu "alice" 1).2
            = Except.ok (buildPageAux c5Menu.definition.perPage c5Menu.pageCount c5Menu.items
                (1 : Int).toNat))
      ∧ (((1 : Int) < 0 ∨ (c5Menu.pageCount : Int) ≤ (1 : Int)) →
        (goToPage c5Menu "alice" 1).1 = c5Menu
        ∧ (goToPage c5Menu "alice" 1).2
            = Except.error ("Invalid page number: " ++ intToString 1))) :=
  have hc : CacheConsistent c5Menu := by
    intro e he
    simp [c5Menu] at he
  ⟨hc, rfl, c5_goToPage_total_on_range c5Menu "alice" 1 hc rfl⟩

/-- Claim C4: under shared mode, createSession by user A on a fresh context
    key creates the session under that key; a second call with the same menu
    and params by a different user B returns the SAME context-key identity
    with both users attached; and a third call by the already-attached B
    returns the same session with the manager state completely unchanged (no
    duplicated viewer entry, no cursor reset). -/
theorem c4_shared_createSession_reuse (st : ManagerState)
    (menuName params userA userB chA chB chB2 : String) (nowA nowB nowB2 : Nat)
    (pa pb pb2 : Bool) (d : MenuDefinition)
    (hd : alistGet st.menus menuName = some d)
    (hmode : modeOf d = SessionMode.shared)
    (hfresh : alistGet st.sessions (d.createKey params) = none)
    (hAB : userA ≠ userB) :
    (createSession st menuName userA chA params nowA pa).2 = Except.ok (d.createKey params)
    ∧ (createSession (createSession st menuName userA chA params nowA pa).1
        menuName userB chB params nowB pb).2 = Except.ok (d.createKey params)
    ∧ (∃ menu,
        alistGet (createSession (createSession st menuName userA chA params nowA pa).1
          menuName userB chB params nowB pb).1.sessions (d.createKey params) = some menu
        ∧ hasUserSession menu userA = true ∧ hasUserSession menu userB = true)
    ∧ createSession (createSession (createSession st menuName userA chA params nowA pa).1
        menuName userB chB params nowB pb).1 menuName userB chB2 params nowB2 pb2
      = ((createSession (createSession st menuName userA chA params nowA pa).1
          menuName userB chB params nowB pb).1, Except.ok (d.createKey params)) := by
  have e1 : createSession st menuName userA chA params nowA pa
      = createNewSession st d userA chA params nowA pa :=
    (createSession_of_menu st menuName userA chA params nowA pa d hd).trans
      (createSessionWithDef_fresh st d userA chA params nowA pa hfresh)
  have hA_menus : (createNewSession st d userA chA params nowA pa).1.menus = st.menus := rfl
  have hA_sessions : alistGet (createNewSession st d userA chA params nowA pa).1.sessions
      (d.createKey params) = some (freshMenu d userA chA params nowA pa) :=
    alistGet_set_self _ _ _
  have hAnotB : hasUserSession (freshMenu d userA chA params nowA pa) userB = false := by
    simp [hasUserSession, freshMenu_userSessions, alistGet, hAB]
  have e2 : createSession (createNewSession st d userA chA params nowA pa).1
      menuName userB chB params nowB pb
      = ({ (createNewSession st d userA chA params nowA pa).1 with
            sessions := alistSet (createNewSession st d userA chA params nowA pa).1.sessions
              (d.createKey params)
              (addUserSession (freshMenu d userA chA params nowA pa)
                (newUserSession userB chB (ephemeralOf d) nowB)) },
         Except.ok (d.createKey params)) := by
    rw [createSession_of_menu _ menuName userB chB params nowB pb d (hA_menus ▸ hd)]
    exact createSessionWithDef_shared_join _ d userB chB params nowB pb _
      hA_sessions hmode hAnotB
  have hB_users : (addUserSession (freshMenu d userA chA params nowA pa)
      (newUserSession userB chB (ephemeralOf d) nowB)).userSessions
      = [(userA, newUserSession userA chA (ephemeralOf d) nowA),
         (userB, newUserSession userB chB (ephemeralOf d) nowB)] := by
    simp [addUserSession, freshMenu_userSessions, newUserSession, alistSet, hAB]
  have hB_hasA : hasUserSession (addUserSession (freshMenu d userA chA params nowA pa)
      (newUserSession userB chB (ephemeralOf d) nowB)) userA = true := by
    simp [hasUserSession, hB_users, alistGet]
  have hB_hasB : hasUserSession (addUserSession (freshMenu d userA chA params nowA pa)
      (newUserSession userB chB (ephemeralOf d) nowB)) userB = true := by
    simp [hasUserSession, hB_users, alistGet, hAB]
  have hB_menus : ({ (createNewSession st d userA chA params nowA pa).1 with
      sessions := alistSet (createNewSession st d userA chA params nowA pa).1.sessions
        (d.createKey params)
        (addUserSession (freshMenu d userA chA params nowA pa)
          (newUserSession userB chB (ephemeralOf d) nowB)) } : ManagerState).menus
      = st.menus := rfl
  have hB_sessions : alistGet ({ (createNewSession st d userA chA params nowA pa).1 with
      sessions := alistSet (createNewSession st d userA chA params nowA pa).1.sessions
        (d.createKey params)
        (addUserSession (freshMenu d userA chA params nowA pa)
          (newUserSession userB chB (ephemeralOf d) nowB)) } : ManagerState).sessions
      (d.createKey params)
      = some (addUserSession (freshMenu d userA chA params nowA pa)
          (newUserSession userB chB (ephemeralOf d) nowB)) :=
    alistGet_set_self _ _ _
  have e3 : createSession ({ (createNewSession st d userA chA params nowA pa).1 with
      sessions := alistSet (createNewSession st d userA chA params nowA pa).1.sessions
        (d.createKey params)
        (addUserSession (freshMenu d userA chA params nowA pa)
          (newUserSession userB chB (ephemeralOf d) nowB)) } : ManagerState)
      menuName userB chB2 params nowB2 pb2
      = (({ (createNewSession st d userA chA params nowA pa).1 with
          sessions := alistSet (createNewSession st d userA chA params nowA pa).1.sessions
            (d.createKey params)
            (addUserSession (freshMenu d userA chA params nowA pa)
              (newUserSession userB chB (ephemeralOf d) nowB)) } : ManagerState),
        Except.ok (d.createKey params)) := by
    rw [createSession_of_menu _ menuName userB chB2 params nowB2 pb2 d (hB_menus ▸ hd)]
    exact createSessionWithDef_shared_attached _ d userB chB2 params nowB2 pb2 _
      hB_sessions hmode hB_hasB
  refine ⟨?_, ?_, ?_, ?_⟩
  · rw [e1]
    rfl
  · rw [e1, e2]
  · rw [e1, e2]
    exact ⟨_, hB_sessions, hB_hasA, hB_hasB⟩
  · rw [e1, e2]
    exact e3

/-- Claim C8: under private mode, a createSession call on an existing
    context-keyed session by a user other than the creator fails with the
    in-use-by-another-user error and leaves the manager state unchanged,
    while the creator calling again gets the same session back, also without
    any state change. -/
theorem c8_private_createSession (st : ManagerState)
    (menuName params intruder creator ch ch2 : String) (now now2 : Nat) (p1 p2 : Bool)
    (d : MenuDefinition) (menu : PaginationMenu)
    (hd : alistGet st.menus menuName = some d)
    (hmode : modeOf d = SessionMode.privateMode)
    (hsess : alistGet st.sessions (d.createKey params) = some menu)
    (hcreator : menu.creatorId = creator)
    (hne : creator ≠ intruder) :
    createSession st menuName intruder ch params now p1
      = (st, Except.error "This menu is currently in use by another user")
    ∧ createSession st menuName creator ch2 params now2 p2
      = (st, Except.ok (d.createKey params)) := by
  constructor
  · rw [createSession_of_menu st menuName intruder ch params now p1 d hd]
    exact createSessionWithDef_private_denied st d intruder ch params now p1 menu
      hsess hmode (hcreator ▸ hne)
  · rw [createSession_of_menu st menuName creator ch2 params now2 p2 d hd]
    exact createSessionWithDef_private_creator st d creator ch2 params now2 p2 menu
      hsess hmode hcreator

theorem c4_shared_createSession_reuse_witness :
    ("alice" : String) ≠ "bob"
    ∧ (createSession (register { } sharedDef) "inbox" "alice" "ch1" "42" 1 false).2
        = Except.ok (sharedDef.createKey "42")
    ∧ (createSession (createSession (register { } sharedDef) "inbox" "alice" "ch1" "42" 1 false).1
        "inbox" "bob" "ch2" "42" 2 false).2 = Except.ok (sharedDef.createKey "42")
    ∧ (∃ menu,
        alistGet (createSession
            (createSession (register { } sharedDef) "inbox" "alice" "ch1" "42" 1 false).1
            "inbox" "bob" "ch2" "42" 2 false).1.sessions (sharedDef.createKey "42")
          = some menu
        ∧ hasUserSession menu "alice" = true ∧ hasUserSession menu "bob" = true)
    ∧ createSession (createSession
          (createSession (register { } sharedDef) "inbox" "alice" "ch1" "42" 1 false).1
          "inbox" "bob" "ch2" "42" 2 false).1 "inbox" "bob" "ch3" "42" 3 false
      = ((createSession
            (createSession (register { } sharedDef) "inbox" "alice" "ch1" "42" 1 false).1
            "inbox" "bob" "ch2" "42" 2 false).1, Except.ok (sharedDef.createKey "42")) := by
  have h := c4_shared_createSession_reuse (register { } sharedDef) "inbox" "42" "alice" "bob"
    "ch1" "ch2" "ch3" 1 2 3 false false false sharedDef rfl rfl rfl (by decide)
  exact ⟨by decide, h.1, h.2.1, h.2.2.1, h.2.2.2⟩

theorem c8_private_createSession_witness :
    ("alice" : String) ≠ "bob"
    ∧ createSession c8State "vault" "bob" "ch2" "7" 5 false
        = (c8State, Except.error "This menu is currently in use by another user")
    ∧ createSession c8State "vault" "alice" "ch3" "7" 6 false
        = (c8State, Except.ok (privateDef.createKey "7")) := by
  have h := c8_private_createSession c8State "vault" "7" "bob" "alice" "ch2" "ch3" 5 6
    false false privateDef c8Menu rfl rfl rfl rfl (by decide)
  exact ⟨by decide, h.1, h.2⟩

end MenuPlugin
